import Mathlib

/-!
Shallow embedding of the artist adapter classes of the compas repository:

* `src/compas_rhino/artists/frameartist.py` — a class named `FrameArtist` whose
  body is a mesh artist (`__init__` takes a mesh; `draw_mesh` triangulates).
* `src/compas_blender/artists/frameartist.py` — the Blender `FrameArtist`.
* `src/compas_rhino/artists/coneartist.py` — the Rhino `ConeArtist`.
* `src/compas_ghpython/artists/meshartist.py` — the Grasshopper `MeshArtist`.

Coordinates are embedded as rational triples (the Python code only adds and
scales coordinates; no irrational operation occurs in this layer), colors as
natural-number triples.  Host drawing functions (`compas_rhino.draw_mesh`,
`compas_blender.draw_points`, …) are external to this layer and are taken as
parameters returning abstract handles, exactly as the spec describes them:
"point/line/mesh creation functions taking descriptor lists and returning
object handles".
-/

/-- A cartesian point or vector: the xyz coordinates used by the artists. -/
abbrev Pt := ℚ × ℚ × ℚ

/-- An rgb color triple, as used by all the artists (0..255 components). -/
abbrev Color := ℕ × ℕ × ℕ

/-- Default point used for out-of-range list indexing in the embedding. -/
def ptZero : Pt := (0, 0, 0)

/-- Conversion of a point object to a plain coordinate list, the embedding of
Python `list(point)` used by the Rhino cone artist and the Blender axes. -/
def ptToList (p : Pt) : List ℚ := [p.1, p.2.1, p.2.2]

/-- Pointwise addition of a point and a vector (`point + vector` in compas). -/
def vadd (a b : Pt) : Pt := (a.1 + b.1, a.2.1 + b.2.1, a.2.2 + b.2.2)

/-- Modelled from the spec: `Vector.scaled` of the external geometry library
(not under src/) — "frame axis vector scaling" — multiplies each component by
the scale factor. -/
def scaled (s : ℚ) (v : Pt) : Pt := (s * v.1, s * v.2.1, s * v.2.2)

/-- Modelled from the spec: `compas.utilities.pairwise` (repository code not
under src/) yields the consecutive pairs of a sequence, as used by
`draw_mesh` in `compas_rhino/artists/frameartist.py`. -/
def pairwise {α : Type} (xs : List α) : List (α × α) := xs.zip xs.tail

/-! ## C1 — name resolution in `compas_rhino/artists/frameartist.py`

The module executes only three imports (`compas_rhino`, `PrimitiveArtist`,
and the `__future__` names), sets `__all__` and defines class `FrameArtist`.
Python resolves free global names of a method body at call time against the
module globals and the builtins; an unresolved name raises `NameError` from
this layer itself, before any host or geometry-library call is reached. -/

/-- The global names bound in module `compas_rhino/artists/frameartist.py`:
the three `__future__` imports, `compas_rhino`, `PrimitiveArtist`, `__all__`
and the class `FrameArtist` itself (source lines 1-13). -/
def rhinoFrameartistModuleGlobals : List String :=
  ["print_function", "absolute_import", "division",
   "compas_rhino", "PrimitiveArtist", "__all__", "FrameArtist"]

/-- The Python builtins the file's method bodies refer to. -/
def pythonBuiltins : List String :=
  ["super", "len", "list", "format", "property", "zip"]

/-- A Python exception, classified by origin: a `NameError` is raised by the
interpreter resolving this module's own code; host and geometry-library
exceptions come from calls into the host API or the geometry library. -/
inductive PyExn where
  | nameError : String → PyExn
  | hostError : String → PyExn
  | geometryError : String → PyExn
deriving DecidableEq, Repr

/-- Resolve a list of free global names, in evaluation order, against the
module globals and the builtins; the first unresolved name raises
`NameError`, as in Python. -/
def lookupGlobals : List String → Except PyExn Unit
  | [] => Except.ok ()
  | n :: rest =>
    if rhinoFrameartistModuleGlobals.contains n || pythonBuiltins.contains n then
      lookupGlobals rest
    else
      Except.error (PyExn.nameError n)

/-- The free global names referenced, in evaluation order, when
`FrameArtist.__init__` runs (source line 46: `super(MeshArtist, self)`).
The remaining statements of the body only touch attributes of `self`. -/
def frameArtistInitGlobalRefs : List String := ["super", "MeshArtist"]

/-- Outcome of running `FrameArtist.__init__` in
`compas_rhino/artists/frameartist.py`: global-name resolution of the body. -/
def frameArtistInitRun : Except PyExn Unit := lookupGlobals frameArtistInitGlobalRefs

/-! ## C2 — the face list computed by `draw_mesh`
(`compas_rhino/artists/frameartist.py`, lines 72-91) -/

/-- A mesh as the Rhino `draw_mesh` body sees it after the geometry-library
accessors: `vertices` is `get_vertices_attributes('xyz')` in `key_index`
order, `faces` is the list of per-face vertex-index lists. -/
structure RhinoMesh where
  name : String
  vertices : List Pt
  faces : List (List ℕ)

/-- The `for face in faces` loop of `draw_mesh` (source lines 76-89):
triangles are padded with `face + face[-1:]`, quads kept, larger faces
replaced by centroid fans (appending the centroid returned by
`centroid_polygon`, taken here as the parameter `cp`, to the vertex list),
and shorter faces skipped. -/
def draw_mesh_loop (cp : List Pt → Pt) (vertices : List Pt)
    (new_faces : List (List ℕ)) : List (List ℕ) → List Pt × List (List ℕ)
  | [] => (vertices, new_faces)
  | face :: rest =>
    if face.length = 3 then
      draw_mesh_loop cp vertices (new_faces ++ [face ++ face.drop (face.length - 1)]) rest
    else if face.length = 4 then
      draw_mesh_loop cp vertices (new_faces ++ [face]) rest
    else if 4 < face.length then
      draw_mesh_loop cp
        (vertices ++ [cp (face.map fun i => vertices.getD i ptZero)])
        (new_faces ++ (pairwise (face ++ face.take 1)).map fun ab => [vertices.length, ab.1, ab.2, ab.2])
        rest
    else
      draw_mesh_loop cp vertices new_faces rest

/-- The vertex and face lists that `draw_mesh` passes to
`compas_rhino.draw_mesh`, with `centroid_polygon` as the parameter `cp`. -/
def draw_mesh_data (cp : List Pt → Pt) (m : RhinoMesh) : List Pt × List (List ℕ) :=
  draw_mesh_loop cp m.vertices [] m.faces

/-- Spec-side reading of the claim: the consecutive vertex pairs of a face
"cycled back to its first vertex". -/
def cycledPairs : List ℕ → List (ℕ × ℕ)
  | [] => []
  | x :: xs => (x :: xs).zip (xs ++ [x])

/-- Spec-side reading of the claim: a 3-vertex face "padded by repeating its
last vertex to make a quad". -/
def padTriangle (face : List ℕ) : List ℕ := face ++ face.getLast?.toList

/-- Spec-side reading of the claim, written independently of the loop: the
output face list, where `n` is the index the next inserted centroid gets
(initially the length of the vertex list). -/
def c2_spec_faces (n : ℕ) : List (List ℕ) → List (List ℕ)
  | [] => []
  | face :: rest =>
    if face.length = 3 then padTriangle face :: c2_spec_faces n rest
    else if face.length = 4 then face :: c2_spec_faces n rest
    else if 4 < face.length then
      ((cycledPairs face).map fun ab => [n, ab.1, ab.2, ab.2]) ++ c2_spec_faces (n + 1) rest
    else c2_spec_faces n rest

/-- Spec-side reading of the claim: the vertex list grows by one centroid,
of the face's own corner points, per face with more than 4 vertices. -/
def c2_spec_vertices (cp : List Pt → Pt) (vertices : List Pt)
    (faces : List (List ℕ)) : List Pt :=
  vertices ++ (faces.filter fun f => 4 < f.length).map fun f =>
    cp (f.map fun i => vertices.getD i ptZero)

/-! ## Blender `FrameArtist` (`compas_blender/artists/frameartist.py`) -/

/-- A compas frame: origin point, the three axis vectors, and a name. -/
structure Frame where
  point : Pt
  xaxis : Pt
  yaxis : Pt
  zaxis : Pt
  name : String

/-- The state a Blender `FrameArtist` holds: the referenced frame, the
collection name, the scale factor and the four colors. -/
structure BlenderFrameArtist where
  primitive : Frame
  collection : String
  scale : ℚ
  color_origin : Color
  color_xaxis : Color
  color_yaxis : Color
  color_zaxis : Color

/-- `FrameArtist.__init__` (source lines 45-57).  The Python signature
defaults are `collection=None` and `scale=1.0`; the body stores
`collection or frame.name` (the base class keeps the collection name) and
`scale or 1.0`, so a `None`/empty collection falls back to the frame's name
and a zero scale falls back to `1.0`; the four colors are set to their
fixed defaults. -/
def BlenderFrameArtist.init (frame : Frame) (collection : Option String)
    (scale : ℚ) : BlenderFrameArtist :=
  ⟨frame,
   match collection with
   | none => frame.name
   | some c => if c = "" then frame.name else c,
   if scale = 0 then 1 else scale,
   (0, 0, 0), (255, 0, 0), (0, 255, 0), (0, 0, 255)⟩

/-- Attribute assignment `artist.scale = s`. -/
def BlenderFrameArtist.set_scale (a : BlenderFrameArtist) (s : ℚ) : BlenderFrameArtist :=
  ⟨a.primitive, a.collection, s, a.color_origin, a.color_xaxis, a.color_yaxis, a.color_zaxis⟩

/-- Attribute assignment `artist.color_origin = c`. -/
def BlenderFrameArtist.set_color_origin (a : BlenderFrameArtist) (c : Color) : BlenderFrameArtist :=
  ⟨a.primitive, a.collection, a.scale, c, a.color_xaxis, a.color_yaxis, a.color_zaxis⟩

/-- Attribute assignment `artist.color_xaxis = c`. -/
def BlenderFrameArtist.set_color_xaxis (a : BlenderFrameArtist) (c : Color) : BlenderFrameArtist :=
  ⟨a.primitive, a.collection, a.scale, a.color_origin, c, a.color_yaxis, a.color_zaxis⟩

/-- Attribute assignment `artist.color_yaxis = c`. -/
def BlenderFrameArtist.set_color_yaxis (a : BlenderFrameArtist) (c : Color) : BlenderFrameArtist :=
  ⟨a.primitive, a.collection, a.scale, a.color_origin, a.color_xaxis, c, a.color_zaxis⟩

/-- Attribute assignment `artist.color_zaxis = c`. -/
def BlenderFrameArtist.set_color_zaxis (a : BlenderFrameArtist) (c : Color) : BlenderFrameArtist :=
  ⟨a.primitive, a.collection, a.scale, a.color_origin, a.color_xaxis, a.color_yaxis, c⟩

/-- A point descriptor as passed to `compas_blender.draw_points`:
keys `pos`, `name`, `color`, `radius`. -/
structure BlenderPointDescr where
  pos : Pt
  name : String
  color : Color
  radius : ℚ
deriving DecidableEq, Repr

/-- A line descriptor as passed to `compas_blender.draw_lines`: keys
`start`, `end`, `color`, `name`; `start` and `end` are plain coordinate
lists (`list(...)` in the source). -/
structure BlenderLineDescr where
  start : List ℚ
  stop : List ℚ
  color : Color
  name : String
deriving DecidableEq, Repr

/-- `FrameArtist.draw_origin` (source lines 72-84): one point descriptor at
the frame's origin, named `<frame name>.origin`, with `color_origin` and
radius `0.01`. -/
def BlenderFrameArtist.draw_origin (a : BlenderFrameArtist) : List BlenderPointDescr :=
  [⟨a.primitive.point, a.primitive.name ++ ".origin", a.color_origin, 1 / 100⟩]

/-- `FrameArtist.draw_axes` (source lines 87-103): three line descriptors
from the origin to origin plus each axis scaled by `self.scale`, named
`.xaxis` / `.yaxis` / `.zaxis` and colored with the per-axis colors. -/
def BlenderFrameArtist.draw_axes (a : BlenderFrameArtist) : List BlenderLineDescr :=
  let origin := ptToList a.primitive.point
  let X := ptToList (vadd a.primitive.point (scaled a.scale a.primitive.xaxis))
  let Y := ptToList (vadd a.primitive.point (scaled a.scale a.primitive.yaxis))
  let Z := ptToList (vadd a.primitive.point (scaled a.scale a.primitive.zaxis))
  [⟨origin, X, a.color_xaxis, a.primitive.name ++ ".xaxis"⟩,
   ⟨origin, Y, a.color_yaxis, a.primitive.name ++ ".yaxis"⟩,
   ⟨origin, Z, a.color_zaxis, a.primitive.name ++ ".zaxis"⟩]

/-- `FrameArtist.draw` (source lines 59-70): after `self.clear()` — a host
side effect of the `BlenderArtist` base class (not under src/) that deletes
objects and contributes nothing to the return value — the method
accumulates the handles returned by `compas_blender.draw_points` on the
origin descriptor and `compas_blender.draw_lines` on the axis descriptors.
The host drawing functions are parameters returning abstract handles. -/
def BlenderFrameArtist.draw {H : Type}
    (host_draw_points : List BlenderPointDescr → String → List H)
    (host_draw_lines : List BlenderLineDescr → String → List H)
    (a : BlenderFrameArtist) : List H :=
  let objects : List H := []
  let objects := objects ++ host_draw_points a.draw_origin a.collection
  let objects := objects ++ host_draw_lines a.draw_axes a.collection
  objects

/-! ## Rhino `ConeArtist` (`compas_rhino/artists/coneartist.py`) -/

/-- A compas cone, seen through what this layer uses of it: its name and its
`to_vertices_and_faces` discretisation (geometry-library code, kept
abstract as a function of the `u` parameter). -/
structure Cone where
  name : String
  to_vertices_and_faces : ℕ → List Pt × List (List ℕ)

/-- The state a Rhino `ConeArtist` holds: the cone, the layer, and the
`color` and `u` defaults kept by the `ShapeArtist` base class. -/
structure ConeArtist where
  shape : Cone
  layer : Option String
  color : Color
  u : ℕ

/-- `ConeArtist.draw` (source lines 25-51): substitute the stored defaults
for a missing `color` (`color or self.color`) and a missing `u`
(`u or self.u`, which in Python also replaces `u == 0`), discretise the
cone, convert each vertex to a plain list, call `compas_rhino.draw_mesh`
once with `disjoint=True`, and return the one-element list of its GUID. -/
def ConeArtist.draw {G : Type}
    (host_draw_mesh : List (List ℚ) → List (List ℕ) → Option String → String → Color → Bool → G)
    (a : ConeArtist) (color : Option Color) (u : Option ℕ) : List G :=
  let color := match color with | none => a.color | some c => c
  let u := match u with | none => a.u | some n => if n = 0 then a.u else n
  let vf := a.shape.to_vertices_and_faces u
  let vertices := vf.1.map ptToList
  [host_draw_mesh vertices vf.2 a.layer a.shape.name color true]

/-! ## Grasshopper `MeshArtist` (`compas_ghpython/artists/meshartist.py`) -/

/-- A compas mesh as the Grasshopper artist reads it through the
geometry-library accessors: vertex keys, edge key pairs, face keys, the
`vertex_xyz` coordinates, `face_vertices`, and the
`to_vertices_and_faces` representation used by `draw_mesh`. -/
structure GHMesh where
  name : String
  vertices : List ℕ
  edges : List (ℕ × ℕ)
  faces : List ℕ
  vertex_xyz : ℕ → Pt
  face_vertices : ℕ → List ℕ
  to_vertices_and_faces : List Pt × List (List ℕ)

/-- The state a Grasshopper `MeshArtist` holds: the mesh, the four show
flags set by `__init__` (source lines 26-37), and the default colors kept
by the `compas.artists.MeshArtist` base class (repository code not under
src/, modelled from the spec: "per-artist configuration with fixed
defaults"). -/
structure GHMeshArtist where
  mesh : GHMesh
  show_mesh : Bool
  show_vertices : Bool
  show_edges : Bool
  show_faces : Bool
  default_color : Color
  default_vertexcolor : Color
  default_edgecolor : Color
  default_facecolor : Color

/-- `MeshArtist.__init__` (source lines 26-37).  The Python defaults are
`show_mesh=False`, `show_vertices=True`, `show_edges=True`,
`show_faces=True`; the default colors come from the base class and are
taken as parameters here. -/
def GHMeshArtist.init (mesh : GHMesh) (show_mesh show_vertices show_edges show_faces : Bool)
    (dc dvc dec dfc : Color) : GHMeshArtist :=
  ⟨mesh, show_mesh, show_vertices, show_edges, show_faces, dc, dvc, dec, dfc⟩

/-- A point descriptor passed to `compas_ghpython.draw_points`. -/
structure GHPointDescr where
  pos : Pt
  name : String
  color : Color
deriving DecidableEq, Repr

/-- A line descriptor passed to `compas_ghpython.draw_lines` (keys `start`,
`end`, `color`, `name`; the `end` key is called `stop` here). -/
structure GHLineDescr where
  start : Pt
  stop : Pt
  color : Color
  name : String
deriving DecidableEq, Repr

/-- A facet descriptor passed to `compas_ghpython.draw_faces`. -/
structure GHFacetDescr where
  points : List Pt
  name : String
  color : Color
deriving DecidableEq, Repr

/-- The host drawing functions the Grasshopper artist calls, returning
abstract geometry handles of type `H`; `joined_mesh` stands for building a
`Rhino.Geometry.Mesh` and appending every drawn face mesh to it. -/
structure GHHost (H : Type) where
  draw_points : List GHPointDescr → List H
  draw_lines : List GHLineDescr → List H
  draw_faces : List GHFacetDescr → List H
  draw_mesh : List Pt → List (List ℕ) → Color → H
  joined_mesh : List H → H

/-- `MeshArtist.draw_vertices` (source lines 108-135).  The Python statement
`vertices = vertices or list(self.mesh.vertices())` replaces both `None`
and an empty selection by all vertices.  The color argument is the
per-key mapping the `vertex_color` property of the base class (repository
code not under src/) produces; lookup falls back to
`default_vertexcolor`. -/
def GHMeshArtist.draw_vertices {H : Type} (host : GHHost H) (a : GHMeshArtist)
    (vertices : Option (List ℕ)) (color : ℕ → Option Color) : List H :=
  let vs := match vertices with
    | none => a.mesh.vertices
    | some l => if l.isEmpty then a.mesh.vertices else l
  host.draw_points (vs.map fun v =>
    ⟨a.mesh.vertex_xyz v, a.mesh.name ++ ".vertex." ++ toString v,
     (color v).getD a.default_vertexcolor⟩)

/-- `MeshArtist.draw_edges` (source lines 175-203), with the same
empty-or-`None` selection fallback and per-key color mapping. -/
def GHMeshArtist.draw_edges {H : Type} (host : GHHost H) (a : GHMeshArtist)
    (edges : Option (List (ℕ × ℕ))) (color : ℕ × ℕ → Option Color) : List H :=
  let es := match edges with
    | none => a.mesh.edges
    | some l => if l.isEmpty then a.mesh.edges else l
  host.draw_lines (es.map fun e =>
    ⟨a.mesh.vertex_xyz e.1, a.mesh.vertex_xyz e.2,
     (color e).getD a.default_edgecolor,
     a.mesh.name ++ ".edge." ++ toString e.1 ++ "-" ++ toString e.2⟩)

/-- `MeshArtist.draw_faces` (source lines 137-166), with the same
empty-or-`None` selection fallback; when `join_faces` is true the face
meshes are appended into one joined mesh and returned as a singleton. -/
def GHMeshArtist.draw_faces {H : Type} (host : GHHost H) (a : GHMeshArtist)
    (faces : Option (List ℕ)) (color : ℕ → Option Color) (join_faces : Bool) : List H :=
  let fs := match faces with
    | none => a.mesh.faces
    | some l => if l.isEmpty then a.mesh.faces else l
  let meshes := host.draw_faces (fs.map fun f =>
    ⟨(a.mesh.face_vertices f).map a.mesh.vertex_xyz,
     a.mesh.name ++ ".face." ++ toString f,
     (color f).getD a.default_facecolor⟩)
  if !join_faces then meshes else [host.joined_mesh meshes]

/-- `MeshArtist.draw_mesh` (source lines 85-109): substitute
`default_color` for a missing color and draw the whole mesh from its
`to_vertices_and_faces` representation. -/
def GHMeshArtist.draw_mesh {H : Type} (host : GHHost H) (a : GHMeshArtist)
    (color : Option Color) : H :=
  let color := match color with | none => a.default_color | some c => c
  host.draw_mesh a.mesh.to_vertices_and_faces.1 a.mesh.to_vertices_and_faces.2 color

/-- `MeshArtist.draw` (source lines 38-83): build `geometry` by appending
the whole-mesh handle when `show_mesh`, then the vertex, edge and face
handles under their flags. -/
def GHMeshArtist.draw {H : Type} (host : GHHost H) (a : GHMeshArtist)
    (vertices : Option (List ℕ)) (edges : Option (List (ℕ × ℕ))) (faces : Option (List ℕ))
    (vertexcolor : ℕ → Option Color) (edgecolor : ℕ × ℕ → Option Color)
    (facecolor : ℕ → Option Color) (color : Option Color) (join_faces : Bool) : List H :=
  let geometry : List H := []
  let geometry := if a.show_mesh then geometry ++ [a.draw_mesh host color] else geometry
  let geometry := if a.show_vertices then geometry ++ a.draw_vertices host vertices vertexcolor else geometry
  let geometry := if a.show_edges then geometry ++ a.draw_edges host edges edgecolor else geometry
  let geometry := if a.show_faces then geometry ++ a.draw_faces host faces facecolor join_faces else geometry
  geometry

/-- `MeshArtist.clear_vertices` (source lines 209-211): the body is `pass`,
so the call returns Python `None` (modelled as `none`) and the artist
state is returned unchanged. -/
def GHMeshArtist.clear_vertices (a : GHMeshArtist) : Option Unit × GHMeshArtist := (none, a)

/-- `MeshArtist.clear_edges` (source lines 205-207): the body is `pass`. -/
def GHMeshArtist.clear_edges (a : GHMeshArtist) : Option Unit × GHMeshArtist := (none, a)

/-- `MeshArtist.clear_faces` (source lines 213-215): the body is `pass`. -/
def GHMeshArtist.clear_faces (a : GHMeshArtist) : Option Unit × GHMeshArtist := (none, a)

/-! ## Theorems -/

/-- C1: constructing the Rhino `FrameArtist` does not reach any host or
geometry-library call; its `__init__` body fails name resolution at
`MeshArtist` — a name the module neither imports nor defines — so the
exception raised is a `NameError` originating in this layer itself,
contradicting the claim that the layer raises no errors of its own. -/
theorem c1_rhino_frameartist_init_raises_nameError :
    frameArtistInitRun = Except.error (PyExn.nameError "MeshArtist") ∧
    rhinoFrameartistModuleGlobals.contains "MeshArtist" = false := by
  exact ⟨rfl, rfl⟩

/-- C3: for every Blender frame artist (any frame, any scale), `draw_axes`
emits exactly three line descriptors, each starting at the frame's origin,
ending at origin plus the corresponding axis scaled by the artist's scale,
named `.xaxis` / `.yaxis` / `.zaxis` after the frame, and colored with
`color_xaxis`, `color_yaxis`, `color_zaxis`, in that order. -/
theorem c3_blender_draw_axes_descriptors (a : BlenderFrameArtist) :
    a.draw_axes.length = 3 ∧
    a.draw_axes.map BlenderLineDescr.start =
      [ptToList a.primitive.point, ptToList a.primitive.point, ptToList a.primitive.point] ∧
    a.draw_axes.map BlenderLineDescr.stop =
      [ptToList (vadd a.primitive.point (scaled a.scale a.primitive.xaxis)),
       ptToList (vadd a.primitive.point (scaled a.scale a.primitive.yaxis)),
       ptToList (vadd a.primitive.point (scaled a.scale a.primitive.zaxis))] ∧
    a.draw_axes.map BlenderLineDescr.name =
      [a.primitive.name ++ ".xaxis", a.primitive.name ++ ".yaxis", a.primitive.name ++ ".zaxis"] ∧
    a.draw_axes.map BlenderLineDescr.color = [a.color_xaxis, a.color_yaxis, a.color_zaxis] := by
  exact ⟨rfl, rfl, rfl, rfl, rfl⟩

/-- C4: a Blender frame artist constructed without a scale argument (Python
default `1.0`) and with untouched colors holds the fixed defaults, and
each of scale and the four colors remains mutable: assigning it before a
draw changes exactly the corresponding part of the emitted descriptors. -/
theorem c4_blender_defaults_and_mutability (frame : Frame) (coll : Option String)
    (a : BlenderFrameArtist) (s : ℚ) (c : Color) :
    (BlenderFrameArtist.init frame coll 1).scale = 1 ∧
    (BlenderFrameArtist.init frame coll 1).color_origin = (0, 0, 0) ∧
    (BlenderFrameArtist.init frame coll 1).color_xaxis = (255, 0, 0) ∧
    (BlenderFrameArtist.init frame coll 1).color_yaxis = (0, 255, 0) ∧
    (BlenderFrameArtist.init frame coll 1).color_zaxis = (0, 0, 255) ∧
    (a.set_scale s).draw_axes.map BlenderLineDescr.stop =
      [ptToList (vadd a.primitive.point (scaled s a.primitive.xaxis)),
       ptToList (vadd a.primitive.point (scaled s a.primitive.yaxis)),
       ptToList (vadd a.primitive.point (scaled s a.primitive.zaxis))] ∧
    (a.set_color_origin c).draw_origin.map BlenderPointDescr.color = [c] ∧
    (a.set_color_xaxis c).draw_axes.map BlenderLineDescr.color = [c, a.color_yaxis, a.color_zaxis] ∧
    (a.set_color_yaxis c).draw_axes.map BlenderLineDescr.color = [a.color_xaxis, c, a.color_zaxis] ∧
    (a.set_color_zaxis c).draw_axes.map BlenderLineDescr.color = [a.color_xaxis, a.color_yaxis, c] := by
  refine ⟨?_, rfl, rfl, rfl, rfl, rfl, rfl, rfl, rfl, rfl⟩
  simp [BlenderFrameArtist.init]

/-- C5: for every frame, the Blender `draw` returns exactly the handles the
host returns for the origin point descriptor followed by the handles the
host returns for the three axis line descriptors, in that order. -/
theorem c5_blender_draw_returns_origin_then_axes {H : Type}
    (host_draw_points : List BlenderPointDescr → String → List H)
    (host_draw_lines : List BlenderLineDescr → String → List H)
    (a : BlenderFrameArtist) :
    a.draw host_draw_points host_draw_lines =
      host_draw_points a.draw_origin a.collection ++ host_draw_lines a.draw_axes a.collection ∧
    a.draw_origin.length = 1 ∧ a.draw_axes.length = 3 := by
  refine ⟨?_, rfl, rfl⟩
  simp [BlenderFrameArtist.draw]

/-- C6: for every cone artist, `draw` called with `color=None` and `u=None`
substitutes the stored defaults, converts each vertex of the cone's
vertices-and-faces representation to a plain coordinate list, makes one
host mesh-drawing call with `disjoint=True`, and returns the singleton
list of the GUID that call returns. -/
theorem c6_rhino_cone_draw_defaults_and_singleton {G : Type}
    (host_draw_mesh : List (List ℚ) → List (List ℕ) → Option String → String → Color → Bool → G)
    (a : ConeArtist) :
    a.draw host_draw_mesh none none =
      [host_draw_mesh ((a.shape.to_vertices_and_faces a.u).1.map ptToList)
        (a.shape.to_vertices_and_faces a.u).2 a.layer a.shape.name a.color true] := by
  exact rfl

/-- C9: the Blender frame artist constructor replaces a zero (falsy) scale
argument by `1.0`, so the scale attribute it sets is never zero. -/
theorem c9_blender_scale_never_zero (frame : Frame) (coll : Option String) (s : ℚ) :
    (BlenderFrameArtist.init frame coll 0).scale = 1 ∧
    (BlenderFrameArtist.init frame coll s).scale ≠ 0 := by
  constructor
  · simp [BlenderFrameArtist.init]
  · show (if s = 0 then 1 else s) ≠ 0
    split
    · norm_num
    · assumption

/-- A concrete frame used to instantiate the Blender constructor. -/
def wFrame : Frame := ⟨(0, 0, 0), (1, 0, 0), (0, 1, 0), (0, 0, 1), "F"⟩

/-- C9 witness: the constructor evaluated at scale `0` on a concrete frame. -/
theorem c9_blender_scale_never_zero_witness :
    (BlenderFrameArtist.init wFrame none 0).scale = 1 ∧
    (BlenderFrameArtist.init wFrame none 0).scale ≠ 0 :=
  c9_blender_scale_never_zero wFrame none 0

/-- C10: the Grasshopper `clear_vertices`, `clear_edges` and `clear_faces`
bodies are `pass`: each returns Python `None` and leaves the artist state
unchanged, for every artist state. -/
theorem c10_gh_clear_methods_are_noops (a : GHMeshArtist) :
    a.clear_vertices = (none, a) ∧ a.clear_edges = (none, a) ∧ a.clear_faces = (none, a) := by
  exact ⟨rfl, rfl, rfl⟩

/-- C7: a Grasshopper mesh artist constructed with the default flags
(`show_mesh=False`, the other three `True`) returns from `draw` the vertex
handles, then the edge handles, then the face handles, concatenated in
that order; and for any value of `show_mesh` (the other flags default),
the whole-mesh handle is prepended as the first element exactly when
`show_mesh` is true. -/
theorem c7_gh_draw_concatenation_order {H : Type} (host : GHHost H) (mesh : GHMesh)
    (sm : Bool) (dc dvc dec dfc : Color)
    (vertices : Option (List ℕ)) (edges : Option (List (ℕ × ℕ))) (faces : Option (List ℕ))
    (vc : ℕ → Option Color) (ec : ℕ × ℕ → Option Color) (fc : ℕ → Option Color)
    (color : Option Color) (jf : Bool) :
    (GHMeshArtist.init mesh false true true true dc dvc dec dfc).draw host
        vertices edges faces vc ec fc color jf =
      (GHMeshArtist.init mesh false true true true dc dvc dec dfc).draw_vertices host vertices vc ++
      (GHMeshArtist.init mesh false true true true dc dvc dec dfc).draw_edges host edges ec ++
      (GHMeshArtist.init mesh false true true true dc dvc dec dfc).draw_faces host faces fc jf ∧
    (GHMeshArtist.init mesh sm true true true dc dvc dec dfc).draw host
        vertices edges faces vc ec fc color jf =
      (if sm then [(GHMeshArtist.init mesh sm true true true dc dvc dec dfc).draw_mesh host color] else []) ++
      (GHMeshArtist.init mesh sm true true true dc dvc dec dfc).draw_vertices host vertices vc ++
      (GHMeshArtist.init mesh sm true true true dc dvc dec dfc).draw_edges host edges ec ++
      (GHMeshArtist.init mesh sm true true true dc dvc dec dfc).draw_faces host faces fc jf := by
  constructor
  · simp [GHMeshArtist.draw, GHMeshArtist.init, List.append_assoc]
  · cases sm <;> simp [GHMeshArtist.draw, GHMeshArtist.init, List.append_assoc]

/-- C8: for every Grasshopper mesh artist, passing an empty selection list
to `draw_vertices`, `draw_edges` or `draw_faces` behaves exactly as
passing `None`, and the `None` case draws every vertex, every edge and
every face of the mesh respectively (not zero elements). -/
theorem c8_gh_empty_selection_draws_all {H : Type} (host : GHHost H) (a : GHMeshArtist)
    (vc : ℕ → Option Color) (ec : ℕ × ℕ → Option Color) (fc : ℕ → Option Color) (jf : Bool) :
    a.draw_vertices host (some []) vc = a.draw_vertices host none vc ∧
    a.draw_edges host (some []) ec = a.draw_edges host none ec ∧
    a.draw_faces host (some []) fc jf = a.draw_faces host none fc jf ∧
    a.draw_vertices host none vc = host.draw_points (a.mesh.vertices.map fun v =>
      ⟨a.mesh.vertex_xyz v, a.mesh.name ++ ".vertex." ++ toString v,
       (vc v).getD a.default_vertexcolor⟩) ∧
    a.draw_edges host none ec = host.draw_lines (a.mesh.edges.map fun e =>
      ⟨a.mesh.vertex_xyz e.1, a.mesh.vertex_xyz e.2, (ec e).getD a.default_edgecolor,
       a.mesh.name ++ ".edge." ++ toString e.1 ++ "-" ++ toString e.2⟩) ∧
    a.draw_faces host none fc false = host.draw_faces (a.mesh.faces.map fun f =>
      ⟨(a.mesh.face_vertices f).map a.mesh.vertex_xyz, a.mesh.name ++ ".face." ++ toString f,
       (fc f).getD a.default_facecolor⟩) := by
  exact ⟨rfl, rfl, rfl, rfl, rfl, rfl⟩

/-- Zipping ignores the part of the left list beyond the length of the
right list. -/
lemma zip_append_left {α β : Type} :
    ∀ (ys : List β) (xs zs : List α), ys.length ≤ xs.length →
      (xs ++ zs).zip ys = xs.zip ys := by
  intro ys
  induction ys with
  | nil => intro xs zs _; simp
  | cons y ys ih =>
    intro xs zs h
    cases xs with
    | nil => simp at h
    | cons x xs =>
      simp only [List.cons_append, List.zip_cons_cons]
      rw [ih xs zs (by simpa using h)]

/-- The consecutive pairs of a face with its first vertex appended are the
cycled consecutive pairs of the face. -/
lemma pairwise_append_head (x : ℕ) (xs : List ℕ) :
    pairwise ((x :: xs) ++ (x :: xs).take 1) = cycledPairs (x :: xs) := by
  show ((x :: xs) ++ [x]).zip (xs ++ [x]) = (x :: xs).zip (xs ++ [x])
  exact zip_append_left (xs ++ [x]) (x :: xs) [x] (by simp)

/-- Dropping all but the last element of a nonempty list leaves the
singleton of its last element. -/
lemma drop_pred_eq_getLast : ∀ (xs : List ℕ), xs ≠ [] →
    xs.drop (xs.length - 1) = xs.getLast?.toList := by
  intro xs
  induction xs with
  | nil => intro h; exact absurd rfl h
  | cons x xs ih =>
    intro _
    cases xs with
    | nil => rfl
    | cons y ys =>
      have h1 : (x :: y :: ys).length - 1 = ys.length + 1 := by simp
      rw [h1, List.drop_succ_cons]
      have h2 := ih (by simp)
      have h3 : (y :: ys).length - 1 = ys.length := by simp
      rw [h3] at h2
      rw [h2, List.getLast?_cons_cons]

/-- The `draw_mesh` loop, started on vertex list `orig ++ extra` and
accumulator `acc`, produces exactly the spec-side vertex and face lists,
provided every face index is valid in `orig` (the mesh-validity invariant
of spec section 3). -/
lemma draw_mesh_loop_eq_spec (cp : List Pt → Pt) (orig : List Pt) :
    ∀ (faces : List (List ℕ)) (extra : List Pt) (acc : List (List ℕ)),
      (∀ f ∈ faces, ∀ i ∈ f, i < orig.length) →
      draw_mesh_loop cp (orig ++ extra) acc faces =
        (orig ++ extra ++ (faces.filter fun f => 4 < f.length).map
            (fun f => cp (f.map fun i => orig.getD i ptZero)),
         acc ++ c2_spec_faces (orig.length + extra.length) faces) := by
  intro faces
  induction faces with
  | nil => intro extra acc _; simp [draw_mesh_loop, c2_spec_faces]
  | cons face rest ih =>
    intro extra acc h
    have hface : ∀ i ∈ face, i < orig.length := h face (by simp)
    have hrest : ∀ f ∈ rest, ∀ i ∈ f, i < orig.length := fun f hf => h f (by simp [hf])
    simp only [draw_mesh_loop]
    by_cases h3 : face.length = 3
    · have hne : face ≠ [] := by intro hh; rw [hh] at h3; simp at h3
      rw [if_pos h3, ih _ _ hrest, drop_pred_eq_getLast face hne]
      simp [c2_spec_faces, h3, List.filter_cons, padTriangle]
    · rw [if_neg h3]
      by_cases h4 : face.length = 4
      · rw [if_pos h4, ih _ _ hrest]
        simp [c2_spec_faces, h3, h4, List.filter_cons]
      · rw [if_neg h4]
        by_cases h5 : 4 < face.length
        · obtain ⟨x, xs, rfl⟩ : ∃ x xs, face = x :: xs := by
            cases face with
            | nil => simp at h5
            | cons x xs => exact ⟨x, xs, rfl⟩
          have hc : ((x :: xs).map fun i => (orig ++ extra).getD i ptZero) =
              (x :: xs).map fun i => orig.getD i ptZero := by
            apply List.map_congr_left
            intro i hi
            exact List.getD_append _ _ _ _ (hface i hi)
          rw [if_pos h5, hc, pairwise_append_head]
          rw [List.append_assoc orig extra]
          rw [ih _ _ hrest]
          have l3 : ¬xs.length = 2 := by intro hh; exact h3 (by simp [hh])
          have l4 : ¬xs.length = 3 := by intro hh; exact h4 (by simp [hh])
          have l5 : 4 < xs.length + 1 := by simpa using h5
          simp [c2_spec_faces, List.filter_cons, l3, l4, l5, Nat.add_assoc]
        · rw [if_neg h5, ih _ _ hrest]
          simp [c2_spec_faces, h3, h4, h5, List.filter_cons]

/-- C2: for every input mesh whose face indices are valid (the invariant the
spec assigns to the geometry library), the vertex and face lists that
`draw_mesh` passes to the host are exactly as the claim states: triangles
padded by their repeated last vertex, quads unchanged, faces with more
than 4 vertices fanned into quads `[centroid, a, b, b]` over the cycled
consecutive pairs with the centroid appended to the vertex list, and
shorter faces dropped. -/
theorem c2_rhino_draw_mesh_face_list (cp : List Pt → Pt) (m : RhinoMesh)
    (h : ∀ f ∈ m.faces, ∀ i ∈ f, i < m.vertices.length) :
    draw_mesh_data cp m =
      (c2_spec_vertices cp m.vertices m.faces,
       c2_spec_faces m.vertices.length m.faces) := by
  have hmain := draw_mesh_loop_eq_spec cp m.vertices m.faces [] [] h
  simpa [draw_mesh_data, c2_spec_vertices] using hmain

/-- A concrete mesh with a triangle, a quad, a pentagon, a degenerate
one-vertex face and an empty face. -/
def c2Mesh : RhinoMesh :=
  ⟨"m",
   [(0, 0, 0), (1, 0, 0), (1, 1, 0), (0, 1, 0), (2, 0, 0), (2, 1, 0)],
   [[0, 1, 2], [0, 1, 2, 3], [0, 1, 2, 3, 4], [0], []]⟩

/-- C2 witness: the hypothesis holds on the concrete mesh and the theorem
applies there. -/
theorem c2_rhino_draw_mesh_face_list_witness :
    (∀ f ∈ c2Mesh.faces, ∀ i ∈ f, i < c2Mesh.vertices.length) ∧
    draw_mesh_data (fun _ => ptZero) c2Mesh =
      (c2_spec_vertices (fun _ => ptZero) c2Mesh.vertices c2Mesh.faces,
       c2_spec_faces c2Mesh.vertices.length c2Mesh.faces) :=
  ⟨by decide, c2_rhino_draw_mesh_face_list (fun _ => ptZero) c2Mesh (by decide)⟩
